import Mathlib

/-!
Verification development for the e-commerce BI dashboard (`src/app.py`).

The script is a sequence of pandas transformations.  We embed the three
analytics sections shallowly:

* timestamps are encoded by their absolute calendar-month index
  (`year * 12 + month`, a single integer) together with the sub-month
  detail (day and time-of-day) as a second integer; `dt.to_period("M")`
  keeps the month index and `to_timestamp()` yields the first-of-month
  timestamp.  Under this encoding the source's month-difference formula
  `(a.year - c.year) * 12 + (a.month - c.month)` is exactly the
  difference of the month indices, and chronological order on
  first-of-month timestamps is the order of the indices.
* monetary amounts are exact rationals; the z-score statistics, which the
  script computes with floating-point means, standard deviations and
  square roots, are modelled over the reals (`Real.sqrt`), with the
  IEEE-non-finite cases (`std` of a single value, division by a zero
  standard deviation) represented by Lean's zero-denominator convention,
  which produces the same "Anomaly"/"Normal" labels as `numpy`'s
  NaN-comparison semantics (`NaN > 2` is false).
* a pandas `groupby` emits its group keys sorted ascending and without
  duplicates; this is modelled by `sortedDistinct`.
-/

namespace BIApp

/-- Calendar timestamp, encoded by the absolute calendar-month index
(`year * 12 + month`) plus the sub-month detail (day / time). -/
structure Timestamp where
  month : ℤ
  day : ℤ
deriving DecidableEq

/-- Month truncation `dt.to_period("M").dt.to_timestamp()`: keep the
calendar month, reset the sub-month detail to the first of the month. -/
def monthFloor (t : Timestamp) : Timestamp := ⟨t.month, 1⟩

/-- Row of `cleaned_transactions.csv` (app.py line 29). -/
structure Transaction where
  transaction_id : ℤ
  customer_id : ℤ
  created_at : Timestamp
  payment_status : String
  total_amount : ℚ
deriving DecidableEq

/-- Row of `cleaned_sessions.csv` (app.py line 30). -/
structure Session where
  customer_id : ℤ
  session_start : Timestamp
  session_end : Timestamp
deriving DecidableEq

/-- Row of `cleaned_customers.csv` (app.py line 31). -/
structure Customer where
  customer_id : ℤ
  signup_date : Timestamp
deriving DecidableEq

/-- Row of `cleaned_support_tickets.csv` (app.py line 32). -/
structure SupportTicket where
  customer_id : ℤ
  created_at : Timestamp
  resolved_at : Timestamp
deriving DecidableEq

/-- Row of `cleaned_products.csv` (app.py line 33); the products table is
loaded but never consumed by the analyzers, so its columns are left
unspecified and modelled by a single payload field. -/
structure Product where
  payload : ℤ
deriving DecidableEq

/-! ### Sorted distinct keys, the shape of a pandas `groupby` index -/

/-- Insert an element into a strictly sorted list, keeping it strictly
sorted (duplicates are dropped). -/
def insSorted {α : Type} [LinearOrder α] (a : α) : List α → List α
  | [] => [a]
  | b :: l =>
    if a < b then a :: b :: l
    else if a = b then b :: l
    else b :: insSorted a l

/-- The sorted list of distinct elements of `l`: the index a pandas
`groupby` produces from the key column `l`. -/
def sortedDistinct {α : Type} [LinearOrder α] (l : List α) : List α :=
  l.foldr insSorted []

theorem mem_insSorted {α : Type} [LinearOrder α] (a x : α) (l : List α) :
    x ∈ insSorted a l ↔ x = a ∨ x ∈ l := by
  induction l with
  | nil => simp [insSorted]
  | cons b l ih =>
    by_cases h1 : a < b
    · simp [insSorted, h1]
    · by_cases h2 : a = b
      · subst h2
        rw [insSorted, if_neg h1, if_pos rfl]
        simp only [List.mem_cons]
        tauto
      · simp only [insSorted, if_neg h1, if_neg h2, List.mem_cons, ih]
        tauto

theorem sorted_insSorted {α : Type} [LinearOrder α] (a : α) (l : List α)
    (h : l.Sorted (· < ·)) : (insSorted a l).Sorted (· < ·) := by
  induction l with
  | nil => simp [insSorted]
  | cons b l ih =>
    rw [List.sorted_cons] at h
    by_cases h1 : a < b
    · rw [insSorted, if_pos h1, List.sorted_cons]
      refine ⟨?_, by rw [List.sorted_cons]; exact h⟩
      intro x hx
      rcases List.mem_cons.mp hx with rfl | hx
      · exact h1
      · exact lt_trans h1 (h.1 x hx)
    · by_cases h2 : a = b
      · subst h2
        rw [insSorted, if_neg h1, if_pos rfl, List.sorted_cons]
        exact h
      · rw [insSorted, if_neg h1, if_neg h2, List.sorted_cons]
        refine ⟨?_, ih h.2⟩
        intro x hx
        rcases (mem_insSorted a x l).mp hx with rfl | hx
        · exact lt_of_le_of_ne (not_lt.mp h1) (Ne.symm h2)
        · exact h.1 x hx

theorem mem_sortedDistinct {α : Type} [LinearOrder α] (l : List α) (x : α) :
    x ∈ sortedDistinct l ↔ x ∈ l := by
  induction l with
  | nil => simp [sortedDistinct]
  | cons b l ih =>
    simp only [sortedDistinct, List.foldr_cons, List.mem_cons]
    rw [show l.foldr insSorted [] = sortedDistinct l from rfl] at *
    rw [mem_insSorted, ih]

theorem sorted_sortedDistinct {α : Type} [LinearOrder α] (l : List α) :
    (sortedDistinct l).Sorted (· < ·) := by
  induction l with
  | nil => simp [sortedDistinct]
  | cons b l ih =>
    exact sorted_insSorted b _ ih

/-! ### Section 1 of app.py: monthly revenue trend with anomaly detection
(lines 47-61) -/

/-- Line 47: `transactions[transactions["payment_status"] == "paid"].copy()`.
The `.copy()` makes the subsequent column assignments act on a fresh frame,
leaving `transactions` untouched. -/
def paid_tx (transactions : List Transaction) : List Transaction :=
  transactions.filter (fun t => t.payment_status == "paid")

/-- Line 48 followed by the `groupby` of lines 50-55: the distinct
`transaction_month` values of the paid transactions, in ascending order
(a pandas `groupby` sorts its keys; the later `sort_values` keeps that
order). -/
def revMonths (transactions : List Transaction) : List ℤ :=
  sortedDistinct ((paid_tx transactions).map (fun t => t.created_at.month))

/-- Lines 50-53: the `total_amount` sum of the paid transactions of one
calendar month. -/
def monthRevenue (transactions : List Transaction) (m : ℤ) : ℚ :=
  (((paid_tx transactions).filter (fun t => t.created_at.month == m)).map
    (fun t => t.total_amount)).sum

/-- Line 58: `monthly_rev["total_amount"].mean()`. -/
noncomputable def mean_rev (transactions : List Transaction) : ℝ :=
  ((revMonths transactions).map (fun m => (monthRevenue transactions m : ℝ))).sum /
    ((revMonths transactions).length : ℝ)

/-- Line 59: `monthly_rev["total_amount"].std()`; the pandas default is the
sample standard deviation with Bessel's correction (`ddof=1`). -/
noncomputable def std_rev (transactions : List Transaction) : ℝ :=
  Real.sqrt
    (((revMonths transactions).map
        (fun m => ((monthRevenue transactions m : ℝ) - mean_rev transactions) ^ 2)).sum /
      (((revMonths transactions).length : ℝ) - 1))

/-- Line 60: the z-score column. -/
noncomputable def z_score (transactions : List Transaction) (m : ℤ) : ℝ :=
  ((monthRevenue transactions m : ℝ) - mean_rev transactions) / std_rev transactions

/-- Line 61: `np.where(abs(z_score) > 2, "Anomaly", "Normal")`. -/
noncomputable def anomalyLabel (transactions : List Transaction) (m : ℤ) : String :=
  if 2 < |z_score transactions m| then "Anomaly" else "Normal"

/-- Row of the `monthly_rev` frame after lines 50-61. -/
structure RevPoint where
  transaction_month : Timestamp
  total_amount : ℚ
  z_score : ℝ
  anomaly : String

/-- The `monthly_rev` frame of lines 50-61: one row per calendar month
present among the paid transactions, in ascending month order, annotated
with the z-score and the anomaly label. -/
noncomputable def monthly_rev (transactions : List Transaction) : List RevPoint :=
  (revMonths transactions).map (fun m =>
    { transaction_month := ⟨m, 1⟩
      total_amount := monthRevenue transactions m
      z_score := z_score transactions m
      anomaly := anomalyLabel transactions m })

/-! ### Section 2 of app.py: cohort retention (lines 90-115) -/

/-- Line 90: the `cohort_month` column assigned to `customers`, as a
calendar-month index (the first-of-month timestamp `monthFloor` carries no
extra information beyond this index). -/
def cohort_month (c : Customer) : ℤ := c.signup_date.month

/-- Line 91: the `activity_month` column assigned to `sessions`. -/
def activity_month (s : Session) : ℤ := s.session_start.month

/-- Lines 93-98: `pd.merge(customers[["customer_id", "cohort_month"]],
sessions[["customer_id", "activity_month"]], on="customer_id", how="left")`.
Each customer row is paired with every matching session row; a customer
with no session keeps one row whose `activity_month` is null (`none`). -/
def mergeCS (customers : List Customer) (sessions : List Session) :
    List (ℤ × ℤ × Option ℤ) :=
  customers.flatMap (fun c =>
    let ms := sessions.filter (fun s => s.customer_id == c.customer_id)
    if ms.isEmpty then [(c.customer_id, cohort_month c, none)]
    else ms.map (fun s => (c.customer_id, cohort_month c, some (activity_month s))))

/-- Lines 100-103: `month_number = (activity.year - cohort.year) * 12 +
(activity.month - cohort.month)`; under the month-index encoding this is
the difference of the two indices, null (NaN) when `activity_month` is
null. -/
def month_number (r : ℤ × ℤ × Option ℤ) : Option ℤ :=
  r.2.2.map (fun a => a - r.2.1)

/-- Line 105: keep the merged rows with `0 <= month_number <= 5`; rows with
a null (NaN) `month_number` fail both comparisons and are dropped.  Each
surviving row is `(customer_id, cohort_month, month_number)`. -/
def filteredMerge (customers : List Customer) (sessions : List Session) :
    List (ℤ × ℤ × ℤ) :=
  (mergeCS customers sessions).filterMap (fun r =>
    match month_number r with
    | some n => if 0 ≤ n ∧ n ≤ 5 then some (r.1, r.2.1, n) else none
    | none => none)

/-- Line 107: `merge.groupby("cohort_month")["customer_id"].nunique()`. -/
def cohort_size (customers : List Customer) (sessions : List Session) (c : ℤ) : ℕ :=
  (((filteredMerge customers sessions).filter (fun r => r.2.1 == c)).map
    (fun r => r.1)).toFinset.card

/-- Lines 109-113: the retention matrix cell before the division, i.e.
`merge.groupby(["cohort_month", "month_number"])["customer_id"].nunique()`
with `unstack(fill_value=0)` filling absent cohort/offset combinations
with 0 (an absent combination has no surviving row, so the count below is
0 for it). -/
def retentionCount (customers : List Customer) (sessions : List Session)
    (c m : ℤ) : ℕ :=
  (((filteredMerge customers sessions).filter
      (fun r => r.2.1 == c && r.2.2 == m)).map (fun r => r.1)).toFinset.card

/-- The row index of the retention matrix: the distinct cohort months among
the surviving merged rows, ascending (pandas `groupby` key order). -/
def cohortMonthsList (customers : List Customer) (sessions : List Session) : List ℤ :=
  sortedDistinct ((filteredMerge customers sessions).map (fun r => r.2.1))

/-- The column index of the retention matrix after `unstack`: the distinct
`month_number` values among the surviving merged rows, ascending. -/
def monthNumberCols (customers : List Customer) (sessions : List Session) : List ℤ :=
  sortedDistinct ((filteredMerge customers sessions).map (fun r => r.2.2))

/-- Rounding half to even, the rounding mode of `pandas.DataFrame.round`
(numpy's `round`), in exact arithmetic. -/
def roundHalfEven (q : ℚ) : ℤ :=
  if q - ⌊q⌋ < 1 / 2 then ⌊q⌋
  else if 1 / 2 < q - ⌊q⌋ then ⌊q⌋ + 1
  else if ⌊q⌋ % 2 = 0 then ⌊q⌋ else ⌊q⌋ + 1

/-- Line 115: `retention.divide(cohort_size, axis=0).round(3) * 100`. -/
def retention_rate (customers : List Customer) (sessions : List Session)
    (c m : ℤ) : ℚ :=
  ((roundHalfEven (((retentionCount customers sessions c m : ℚ) /
      (cohort_size customers sessions c : ℚ)) * 1000) : ℚ) / 1000) * 100

/-! ### Section 3 of app.py: support tickets vs payment outcomes
(lines 131-144) -/

/-- Line 131: `tickets.groupby("customer_id").size().reset_index(...)`:
one row per distinct ticket customer, ascending by id, with the number of
ticket rows of that customer. -/
def ticket_counts (tickets : List SupportTicket) : List (ℤ × ℕ) :=
  (sortedDistinct (tickets.map (fun t => t.customer_id))).map
    (fun c => (c, (tickets.filter (fun t => t.customer_id == c)).length))

/-- The columns the pivot of lines 134-139 creates: the distinct
`payment_status` values occurring in the transactions table.  A status
with no transaction at all yields no column. -/
def txStatuses (transactions : List Transaction) : Finset String :=
  (transactions.map (fun t => t.payment_status)).toFinset

/-- The customers occurring in the transactions table (the key set of
`payment_summary`). -/
def txCustomers (transactions : List Transaction) : Finset ℤ :=
  (transactions.map (fun t => t.customer_id)).toFinset

/-- Lines 134-139: the pivoted count of transactions of one customer with
one payment status (`unstack(fill_value=0)` makes this 0, not null, for a
customer present in the table but without that status). -/
def statusCount (transactions : List Transaction) (c : ℤ) (s : String) : ℕ :=
  (transactions.filter
    (fun t => t.customer_id == c && t.payment_status == s)).length

/-- Row of the `support_vs_payment` frame after lines 141-144.
`statusCell s` is `none` when the pivot produced no column for status `s`,
and otherwise the numeric cell value after `fillna(0)`. -/
structure SPRow where
  customer_id : ℤ
  ticket_count : ℕ
  statusCell : String → Option ℕ
  paid_tx : ℕ

/-- Lines 141-144: left-join `ticket_counts` with `payment_summary` on
`customer_id` (keeping exactly the ticket customers), fill the nulls left
by customers absent from the transactions with 0, then
`support_vs_payment["paid_tx"] = support_vs_payment.get("paid", 0)`: the
"paid" column when it exists, else the scalar 0. -/
def support_vs_payment (tickets : List SupportTicket)
    (transactions : List Transaction) : List SPRow :=
  (ticket_counts tickets).map (fun p =>
    { customer_id := p.1
      ticket_count := p.2
      statusCell := fun s =>
        if s ∈ txStatuses transactions then
          some ((if p.1 ∈ txCustomers transactions then
              some (statusCount transactions p.1 s) else none).getD 0)
        else none
      paid_tx :=
        if "paid" ∈ txStatuses transactions then
          (if p.1 ∈ txCustomers transactions then
              some (statusCount transactions p.1 "paid") else none).getD 0
        else 0 })

/-! ### The five source tables across the three analyzer sections

The script holds the loader's five frames in module-level variables
(line 38) and runs the three sections in order.  We track that state:
each table keeps its loaded rows, and `customersExtra` / `sessionsExtra`
record the columns a section assigns in place onto `customers` and
`sessions` (pandas appends an assigned new column), with their per-row
values. -/

/-- The five tables as returned by `load_data_from_github` (lines 29-35). -/
structure LoadedTables where
  transactions : List Transaction
  sessions : List Session
  customers : List Customer
  tickets : List SupportTicket
  products : List Product
deriving DecidableEq

/-- The script-level state of the five source tables. -/
structure DashState where
  transactions : List Transaction
  sessions : List Session
  customers : List Customer
  tickets : List SupportTicket
  products : List Product
  customersExtra : List (String × List Timestamp)
  sessionsExtra : List (String × List Timestamp)
deriving DecidableEq

/-- Line 38: the loader's tables, before any analyzer runs; no extra
columns have been assigned. -/
def initState (lt : LoadedTables) : DashState :=
  ⟨lt.transactions, lt.sessions, lt.customers, lt.tickets, lt.products, [], []⟩

/-- Lines 44-81 (revenue section): line 47 takes a `.copy()` of the
filtered transactions, and every assignment of the section targets that
copy or the derived `monthly_rev` frame, so the five source tables are
untouched. -/
def runRevenueSection (st : DashState) : DashState := st

/-- Lines 87-122 (cohort section): lines 90-91 assign the new columns
`cohort_month` and `activity_month` in place onto the `customers` and
`sessions` source tables; everything else of the section works on the
derived `merge` frame. -/
def runCohortSection (st : DashState) : DashState :=
  { st with
    customersExtra := st.customersExtra ++
      [("cohort_month", st.customers.map (fun c => monthFloor c.signup_date))]
    sessionsExtra := st.sessionsExtra ++
      [("activity_month", st.sessions.map (fun s => monthFloor s.session_start))] }

/-- Lines 128-161 (support section): `ticket_counts`, `payment_summary`
and `support_vs_payment` are fresh frames (the in-place `fillna` of
line 142 and the assignment of line 144 target `support_vs_payment`), so
the five source tables are untouched. -/
def runSupportSection (st : DashState) : DashState := st

/-- The state of the five source tables after the three analyzer sections
have run in program order. -/
def runAnalyzers (lt : LoadedTables) : DashState :=
  runSupportSection (runCohortSection (runRevenueSection (initState lt)))

/-! ### Spec-side definition for the cohort-size comparison -/

/-- Specification-side counterpart of `cohort_size`, written from the
spec's words: `cohort_size[c]` counts the distinct ids of the customers
with cohort month `c` that have at least one session whose activity month
falls 0 to 5 months after the signup month.  It is compared with the
pipeline's `cohort_size` in the corresponding theorem. -/
def specCohortSize (cs : List Customer) (ss : List Session) (c : ℤ) : ℕ :=
  ((cs.filter (fun cust => cohort_month cust == c &&
      ss.any (fun s => s.customer_id == cust.customer_id &&
        decide (0 ≤ activity_month s - cohort_month cust) &&
        decide (activity_month s - cohort_month cust ≤ 5)))).map
    (fun cust => cust.customer_id)).toFinset.card

/-! ### Concrete inputs used by counterexamples and witnesses -/

/-- One paid transaction of customer 1 and no support tickets. -/
def c1Transactions : List Transaction := [⟨1, 1, ⟨0, 5⟩, "paid", 10⟩]

/-- Empty ticket table paired with `c1Transactions`. -/
def c1Tickets : List SupportTicket := []

/-- A single ticket of customer 7. -/
def c1wTickets : List SupportTicket := [⟨7, ⟨0, 1⟩, ⟨0, 2⟩⟩]

/-- Empty transaction table paired with `c1wTickets`. -/
def c1wTransactions : List Transaction := []

/-- A loader result with one customer and one session. -/
def c2Loaded : LoadedTables := ⟨[], [⟨1, ⟨0, 2⟩, ⟨0, 3⟩⟩], [⟨1, ⟨0, 1⟩⟩], [], []⟩

/-- A loader result with a single customer and nothing else. -/
def c2wLoaded : LoadedTables := ⟨[], [], [⟨2, ⟨3, 4⟩⟩], [], []⟩

/-- Paid transactions in two distinct months. -/
def c3Transactions : List Transaction :=
  [⟨1, 1, ⟨0, 5⟩, "paid", 0⟩, ⟨2, 1, ⟨1, 6⟩, "paid", 4⟩]

/-- One customer signing up in month 0. -/
def c4Customers : List Customer := [⟨1, ⟨0, 3⟩⟩]

/-- One session of that customer in its signup month. -/
def c4Sessions : List Session := [⟨1, ⟨0, 9⟩, ⟨0, 9⟩⟩]

/-- Two customers of the month-0 cohort, one of which never has a
session. -/
def c5Customers : List Customer := [⟨1, ⟨0, 2⟩⟩, ⟨2, ⟨0, 4⟩⟩]

/-- One qualifying session of customer 1, two months after signup. -/
def c5Sessions : List Session := [⟨1, ⟨2, 7⟩, ⟨2, 8⟩⟩]

/-- One customer signing up in month 0. -/
def c6Customers : List Customer := [⟨1, ⟨0, 3⟩⟩]

/-- One session of that customer in its signup month. -/
def c6Sessions : List Session := [⟨1, ⟨0, 9⟩, ⟨0, 9⟩⟩]

/-- Transactions with paid rows in two months and a refunded row. -/
def c7Transactions : List Transaction :=
  [⟨1, 1, ⟨3, 5⟩, "paid", 10⟩, ⟨2, 2, ⟨2, 6⟩, "paid", 4⟩,
   ⟨3, 1, ⟨9, 1⟩, "refunded", 6⟩]

/-- One ticket of customer 3. -/
def c8Tickets : List SupportTicket := [⟨3, ⟨0, 1⟩, ⟨0, 2⟩⟩]

/-- A transaction table with no "paid" row at all. -/
def c8Transactions : List Transaction := [⟨1, 4, ⟨0, 5⟩, "refunded", 10⟩]

/-- Paid transactions in two distinct months. -/
def c9Transactions : List Transaction :=
  [⟨1, 1, ⟨5, 5⟩, "paid", 3⟩, ⟨2, 1, ⟨6, 6⟩, "paid", 9⟩]

/-- Paid transactions spanning exactly one calendar month. -/
def c10Transactions : List Transaction :=
  [⟨1, 1, ⟨4, 2⟩, "paid", 5⟩, ⟨2, 2, ⟨4, 9⟩, "paid", 7⟩]

/-! ### Helper lemmas -/

theorem sum_map_div_real (l : List ℝ) (c : ℝ) :
    (l.map (fun x => x / c)).sum = l.sum / c := by
  induction l with
  | nil => simp
  | cons a l ih => simp [ih, add_div]

theorem sum_map_sub_real (l : List ℝ) (μ : ℝ) :
    (l.map (fun x => x - μ)).sum = l.sum - l.length * μ := by
  induction l with
  | nil => simp
  | cons a l ih =>
    simp only [List.map_cons, List.sum_cons, ih, List.length_cons]
    push_cast
    ring

/-- Membership in the month index of the monthly revenue series. -/
theorem mem_revMonths (ts : List Transaction) (m : ℤ) :
    m ∈ revMonths ts ↔
      ∃ t ∈ ts, t.payment_status = "paid" ∧ t.created_at.month = m := by
  rw [revMonths, mem_sortedDistinct]
  simp [paid_tx, List.mem_filter, and_assoc]

/-- The values column of `monthly_rev` seen through the row list. -/
theorem monthly_rev_values (ts : List Transaction) :
    (monthly_rev ts).map (fun p => (p.total_amount : ℝ)) =
      (revMonths ts).map (fun m => (monthRevenue ts m : ℝ)) := by
  rw [monthly_rev, List.map_map]
  rfl

theorem monthly_rev_length (ts : List Transaction) :
    (monthly_rev ts).length = (revMonths ts).length := by
  rw [monthly_rev, List.length_map]

/-- Centering a list at its mean and dividing by a common constant yields
values summing to zero. -/
theorem sum_centered_div (l : List ℝ) (σ n : ℝ) (hn : n ≠ 0)
    (hlen : (l.length : ℝ) = n) :
    (l.map (fun x => (x - l.sum / n) / σ)).sum = 0 := by
  have h2 : l.map (fun x => (x - l.sum / n) / σ) =
      (l.map (fun x => x - l.sum / n)).map (fun x => x / σ) := by
    rw [List.map_map]
    rfl
  rw [h2, sum_map_div_real, sum_map_sub_real, hlen, mul_comm,
    div_mul_cancel₀ _ hn, sub_self, zero_div]

/-- The z-scores of the monthly revenue series sum to zero: subtracting the
mean makes the deviations cancel, and the common division by the standard
deviation preserves the zero sum. -/
theorem sum_z_scores (ts : List Transaction) (h : (revMonths ts).length ≠ 0) :
    ((revMonths ts).map (fun m => z_score ts m)).sum = 0 := by
  have hn : ((revMonths ts).length : ℝ) ≠ 0 := by
    exact_mod_cast h
  have h1 : ((revMonths ts).map (fun m => z_score ts m)).sum =
      (((revMonths ts).map (fun m => (monthRevenue ts m : ℝ))).map
        (fun x => (x - mean_rev ts) / std_rev ts)).sum := by
    rw [List.map_map]
    rfl
  rw [h1]
  simp only [mean_rev]
  exact sum_centered_div _ _ _ hn (by rw [List.length_map])

/-- Triviality of the rounding at 0, and its bounds on `[0, N]`. -/
theorem roundHalfEven_zero : roundHalfEven 0 = 0 := by
  norm_num [roundHalfEven]

theorem roundHalfEven_nonneg (q : ℚ) (h : 0 ≤ q) : 0 ≤ roundHalfEven q := by
  have hf : (0 : ℤ) ≤ ⌊q⌋ := Int.floor_nonneg.mpr h
  unfold roundHalfEven
  split_ifs <;> omega

theorem roundHalfEven_le (q : ℚ) (N : ℤ) (h : q ≤ (N : ℚ)) :
    roundHalfEven q ≤ N := by
  have hfl : ⌊q⌋ ≤ N := by
    have := Int.floor_le_floor h
    rwa [Int.floor_intCast] at this
  have hstep : ¬ q - ⌊q⌋ < 1 / 2 → ⌊q⌋ + 1 ≤ N := by
    intro hge
    have hlt : (⌊q⌋ : ℚ) < q := by
      have : (1 : ℚ) / 2 ≤ q - ⌊q⌋ := not_lt.mp hge
      linarith
    have : (⌊q⌋ : ℚ) < (N : ℚ) := lt_of_lt_of_le hlt h
    have : ⌊q⌋ < N := by exact_mod_cast this
    omega
  unfold roundHalfEven
  split_ifs with h1 h2 h3
  · exact hfl
  · exact hstep h1
  · exact hfl
  · exact hstep h1

/-- Membership in the filtered merged cohort frame, characterized over the
raw customers and sessions tables. -/
theorem mem_filteredMerge (cs : List Customer) (ss : List Session)
    (r : ℤ × ℤ × ℤ) :
    r ∈ filteredMerge cs ss ↔
      ∃ cust ∈ cs, ∃ s ∈ ss, s.customer_id = cust.customer_id ∧
        0 ≤ activity_month s - cohort_month cust ∧
        activity_month s - cohort_month cust ≤ 5 ∧
        r = (cust.customer_id, cohort_month cust,
              activity_month s - cohort_month cust) := by
  constructor
  · intro hr
    rw [filteredMerge, List.mem_filterMap] at hr
    obtain ⟨r0, hr0, hf⟩ := hr
    rw [mergeCS, List.mem_flatMap] at hr0
    obtain ⟨cust, hcust, hr0m⟩ := hr0
    by_cases he : (ss.filter (fun s => s.customer_id == cust.customer_id)).isEmpty
    · rw [if_pos he, List.mem_singleton] at hr0m
      subst hr0m
      simp [month_number] at hf
    · rw [if_neg he, List.mem_map] at hr0m
      obtain ⟨s, hs, rfl⟩ := hr0m
      rw [List.mem_filter] at hs
      simp only [month_number, Option.map_some'] at hf
      split_ifs at hf with hcond
      exact ⟨cust, hcust, s, hs.1, beq_iff_eq.mp hs.2, hcond.1, hcond.2,
        (Option.some_inj.mp hf).symm⟩
  · rintro ⟨cust, hcust, s, hs, hid, h0, h5, rfl⟩
    rw [filteredMerge, List.mem_filterMap]
    refine ⟨(cust.customer_id, cohort_month cust, some (activity_month s)),
      ?_, ?_⟩
    · rw [mergeCS, List.mem_flatMap]
      refine ⟨cust, hcust, ?_⟩
      have hmem : s ∈ ss.filter (fun s2 => s2.customer_id == cust.customer_id) :=
        List.mem_filter.mpr ⟨hs, by simp [hid]⟩
      have hne : ¬ (ss.filter
          (fun s2 => s2.customer_id == cust.customer_id)).isEmpty := by
        intro hE
        rw [List.isEmpty_iff] at hE
        rw [hE] at hmem
        simp at hmem
      rw [if_neg hne, List.mem_map]
      exact ⟨s, hmem, rfl⟩
    · simp only [month_number, Option.map_some']
      rw [if_pos ⟨h0, h5⟩]

/-- Every surviving merged row has its month offset inside `[0, 5]`. -/
theorem filteredMerge_offset_bounds (cs : List Customer) (ss : List Session)
    (r : ℤ × ℤ × ℤ) (hr : r ∈ filteredMerge cs ss) :
    0 ≤ r.2.2 ∧ r.2.2 ≤ 5 := by
  obtain ⟨cust, _, s, _, _, h0, h5, rfl⟩ := (mem_filteredMerge cs ss r).mp hr
  exact ⟨h0, h5⟩

/-- A retention cell counts a subset of the customers its cohort size
counts. -/
theorem retentionCount_le_cohort_size (cs : List Customer) (ss : List Session)
    (c m : ℤ) : retentionCount cs ss c m ≤ cohort_size cs ss c := by
  apply Finset.card_le_card
  intro x hx
  simp only [retentionCount, cohort_size, List.mem_toFinset, List.mem_map,
    List.mem_filter, Bool.and_eq_true, beq_iff_eq] at hx ⊢
  obtain ⟨r, ⟨hr, hc, _⟩, rfl⟩ := hx
  exact ⟨r, ⟨hr, hc⟩, rfl⟩

/-- A cohort month present in the matrix rows has a positive cohort size. -/
theorem cohort_size_pos (cs : List Customer) (ss : List Session) (c : ℤ)
    (hc : c ∈ cohortMonthsList cs ss) : 0 < cohort_size cs ss c := by
  rw [cohortMonthsList, mem_sortedDistinct, List.mem_map] at hc
  obtain ⟨r, hr, hrc⟩ := hc
  rw [cohort_size, Finset.card_pos]
  refine ⟨r.1, ?_⟩
  simp only [List.mem_toFinset, List.mem_map, List.mem_filter, beq_iff_eq]
  exact ⟨r, ⟨hr, hrc⟩, rfl⟩

/-- A cohort/offset combination with no surviving merged row has a zero
cell before the rate division. -/
theorem retentionCount_eq_zero (cs : List Customer) (ss : List Session)
    (c m : ℤ)
    (hno : ¬ ∃ r ∈ filteredMerge cs ss, r.2.1 = c ∧ r.2.2 = m) :
    retentionCount cs ss c m = 0 := by
  have hnil : (filteredMerge cs ss).filter
      (fun r => r.2.1 == c && r.2.2 == m) = [] := by
    rw [List.filter_eq_nil_iff]
    intro r hr
    simp only [Bool.and_eq_true, beq_iff_eq, not_and]
    intro h1 h2
    exact hno ⟨r, hr, h1, h2⟩
  rw [retentionCount, hnil]
  simp

/-- A customer with no transaction row has a zero pivoted count for every
status. -/
theorem statusCount_of_not_txCustomer (ts : List Transaction) (c : ℤ)
    (s : String) (h : c ∉ txCustomers ts) : statusCount ts c s = 0 := by
  rw [statusCount, List.length_eq_zero]
  rw [List.filter_eq_nil_iff]
  intro t ht
  simp only [Bool.and_eq_true, beq_iff_eq, not_and]
  intro hc
  exfalso
  exact h (List.mem_toFinset.mpr (List.mem_map.mpr ⟨t, ht, hc⟩))

/-- A status absent from the whole transactions table has a zero count for
every customer. -/
theorem statusCount_of_not_txStatus (ts : List Transaction) (c : ℤ)
    (s : String) (h : s ∉ txStatuses ts) : statusCount ts c s = 0 := by
  rw [statusCount, List.length_eq_zero]
  rw [List.filter_eq_nil_iff]
  intro t ht
  simp only [Bool.and_eq_true, beq_iff_eq, not_and]
  intro _ hs
  exact absurd (List.mem_toFinset.mpr (List.mem_map.mpr ⟨t, ht, hs⟩)) h

/-- The customer ids of the correlator output are exactly the sorted
distinct ticket customer ids. -/
theorem support_vs_payment_ids (tk : List SupportTicket)
    (ts : List Transaction) :
    (support_vs_payment tk ts).map SPRow.customer_id =
      sortedDistinct (tk.map (fun t => t.customer_id)) := by
  rw [support_vs_payment, List.map_map, ticket_counts, List.map_map]
  exact List.map_id _

/-! ### Claim C1: rows of the Support-Payment Correlator output -/

/-- C1, counterexample: the claim says the output has one row per
customer appearing in either the ticket table or the transactions table.
With no tickets and one paid transaction of customer 1, customer 1 appears
in the transactions, yet the output is empty: the merge of line 141 keeps
only ticket customers. -/
theorem c1_counterexample :
    support_vs_payment c1Tickets c1Transactions = [] ∧
    (1 : ℤ) ∈ txCustomers c1Transactions ∧ c1Transactions ≠ [] :=
  ⟨rfl, by decide, by decide⟩

/-- C1 (amended): the Support-Payment Correlator output contains exactly
one row per customer_id that appears in the ticket table (the row ids are
strictly sorted, hence pairwise distinct); a customer id appears among the
rows if and only if that customer has at least one support ticket, so
customers with transactions but no tickets are absent. -/
theorem c1_rows (tk : List SupportTicket) (ts : List Transaction) :
    ((support_vs_payment tk ts).map SPRow.customer_id).Sorted (· < ·) ∧
    (∀ c : ℤ, c ∈ (support_vs_payment tk ts).map SPRow.customer_id ↔
      ∃ t ∈ tk, t.customer_id = c) := by
  rw [support_vs_payment_ids]
  refine ⟨sorted_sortedDistinct _, ?_⟩
  intro c
  rw [mem_sortedDistinct, List.mem_map]

/-- C1, witness: the amended row characterization applied at a concrete
input: the single ticket customer 7 yields a row. -/
theorem c1_rows_witness :
    (7 : ℤ) ∈ (support_vs_payment c1wTickets c1wTransactions).map SPRow.customer_id :=
  ((c1_rows c1wTickets c1wTransactions).2 7).mpr ⟨⟨7, ⟨0, 1⟩, ⟨0, 2⟩⟩, by decide, rfl⟩

/-! ### Claim C2: mutation of the loader's tables -/

/-- C2, counterexample: the claim says the five source tables are
unchanged after the analyzers run.  On a concrete loader result the state
after the three sections differs from the loaded state: the cohort section
has assigned a `cohort_month` column onto the `customers` table
(app.py line 90). -/
theorem c2_counterexample :
    runAnalyzers c2Loaded ≠ initState c2Loaded ∧
    (initState c2Loaded).customersExtra = [] ∧
    (runAnalyzers c2Loaded).customersExtra = [("cohort_month", [⟨0, 1⟩])] := by
  decide

/-- C2 (amended): the transactions, tickets and products tables are
unchanged by the three analyzer sections, and the customers and sessions
tables keep their loaded rows but each gains exactly one in-place assigned
derived column (`cohort_month` from line 90, `activity_month` from
line 91). -/
theorem c2_frame (lt : LoadedTables) :
    (runAnalyzers lt).transactions = lt.transactions ∧
    (runAnalyzers lt).sessions = lt.sessions ∧
    (runAnalyzers lt).customers = lt.customers ∧
    (runAnalyzers lt).tickets = lt.tickets ∧
    (runAnalyzers lt).products = lt.products ∧
    (runAnalyzers lt).customersExtra =
      [("cohort_month", lt.customers.map (fun c => monthFloor c.signup_date))] ∧
    (runAnalyzers lt).sessionsExtra =
      [("activity_month", lt.sessions.map (fun s => monthFloor s.session_start))] :=
  ⟨rfl, rfl, rfl, rfl, rfl, rfl, rfl⟩

/-- C2, witness: the amended frame statement applied at a concrete loader
result. -/
theorem c2_frame_witness :
    (runAnalyzers c2wLoaded).customers = c2wLoaded.customers ∧
    (runAnalyzers c2wLoaded).customersExtra =
      [("cohort_month", c2wLoaded.customers.map (fun c => monthFloor c.signup_date))] :=
  ⟨(c2_frame c2wLoaded).2.2.1, (c2_frame c2wLoaded).2.2.2.2.2.1⟩

/-! ### Claim C3: z-score formula and anomaly labelling -/

/-- C3: on a monthly revenue series with at least two months, every row's
z-score equals its total minus the mean of all monthly totals, divided by
the sample standard deviation (Bessel's correction, denominator n - 1) of
the monthly totals, and a row is labelled "Anomaly" exactly when the
absolute z-score exceeds 2, otherwise "Normal". -/
theorem c3_zscore (ts : List Transaction) (h : 2 ≤ (revMonths ts).length) :
    ∀ p ∈ monthly_rev ts,
      p.z_score = ((p.total_amount : ℝ) -
          ((monthly_rev ts).map (fun q => (q.total_amount : ℝ))).sum /
            ((monthly_rev ts).length : ℝ)) /
        Real.sqrt
          (((monthly_rev ts).map (fun q => ((q.total_amount : ℝ) -
              ((monthly_rev ts).map (fun q => (q.total_amount : ℝ))).sum /
                ((monthly_rev ts).length : ℝ)) ^ 2)).sum /
            (((monthly_rev ts).length : ℝ) - 1)) ∧
      (p.anomaly = "Anomaly" ↔ 2 < |p.z_score|) ∧
      (p.anomaly = "Normal" ↔ ¬ 2 < |p.z_score|) := by
  intro p hp
  have hmean : ((monthly_rev ts).map (fun q => (q.total_amount : ℝ))).sum /
      ((monthly_rev ts).length : ℝ) = mean_rev ts := by
    rw [monthly_rev_values, monthly_rev_length, mean_rev]
  rw [hmean]
  have hsq : (monthly_rev ts).map
        (fun q => ((q.total_amount : ℝ) - mean_rev ts) ^ 2) =
      (revMonths ts).map
        (fun m => ((monthRevenue ts m : ℝ) - mean_rev ts) ^ 2) := by
    rw [monthly_rev, List.map_map]
    rfl
  rw [hsq, monthly_rev_length]
  rw [monthly_rev, List.mem_map] at hp
  obtain ⟨m, hm, rfl⟩ := hp
  refine ⟨?_, ?_, ?_⟩
  · show z_score ts m = ((monthRevenue ts m : ℝ) - mean_rev ts) / Real.sqrt _
    rw [z_score, std_rev]
  · show anomalyLabel ts m = "Anomaly" ↔ 2 < |z_score ts m|
    rw [anomalyLabel]
    split_ifs with hz
    · simp [hz]
    · constructor
      · intro hcontra
        exact absurd hcontra (by decide)
      · intro h2z
        exact absurd h2z hz
  · show anomalyLabel ts m = "Normal" ↔ ¬ 2 < |z_score ts m|
    rw [anomalyLabel]
    split_ifs with hz
    · constructor
      · intro hcontra
        exact absurd hcontra (by decide)
      · intro hn
        exact absurd hz hn
    · simp [hz]

/-- C3, witness: the z-score formula applied to a concrete two-month
series. -/
theorem c3_zscore_witness :
    2 ≤ (revMonths c3Transactions).length ∧
    ∀ p ∈ monthly_rev c3Transactions,
      p.z_score = ((p.total_amount : ℝ) -
          ((monthly_rev c3Transactions).map (fun q => (q.total_amount : ℝ))).sum /
            ((monthly_rev c3Transactions).length : ℝ)) /
        Real.sqrt
          (((monthly_rev c3Transactions).map (fun q => ((q.total_amount : ℝ) -
              ((monthly_rev c3Transactions).map (fun q => (q.total_amount : ℝ))).sum /
                ((monthly_rev c3Transactions).length : ℝ)) ^ 2)).sum /
            (((monthly_rev c3Transactions).length : ℝ) - 1)) ∧
      (p.anomaly = "Anomaly" ↔ 2 < |p.z_score|) ∧
      (p.anomaly = "Normal" ↔ ¬ 2 < |p.z_score|) :=
  ⟨by decide, c3_zscore c3Transactions (by decide)⟩

/-! ### Claim C7: shape of the monthly revenue series -/

/-- C7: the monthly revenue series has one row per calendar month with at
least one paid transaction and no other rows, each row's total is the sum
of the paid transactions' amounts of that month, the month column holds
first-of-month timestamps, and the rows are strictly ascending by month
(hence duplicate-free). -/
theorem c7_series (ts : List Transaction) :
    ((monthly_rev ts).map (fun p => p.transaction_month.month)).Sorted (· < ·) ∧
    (∀ p ∈ monthly_rev ts, p.transaction_month.day = 1) ∧
    (∀ m : ℤ, (∃ p ∈ monthly_rev ts, p.transaction_month.month = m) ↔
      ∃ t ∈ ts, t.payment_status = "paid" ∧ t.created_at.month = m) ∧
    (∀ p ∈ monthly_rev ts, p.total_amount =
      ((ts.filter (fun t => t.payment_status == "paid" &&
          t.created_at.month == p.transaction_month.month)).map
        (fun t => t.total_amount)).sum) := by
  have hmonths : (monthly_rev ts).map (fun p => p.transaction_month.month) =
      revMonths ts := by
    rw [monthly_rev, List.map_map]
    exact List.map_id _
  refine ⟨?_, ?_, ?_, ?_⟩
  · rw [hmonths]
    exact sorted_sortedDistinct _
  · intro p hp
    rw [monthly_rev, List.mem_map] at hp
    obtain ⟨m, hm, rfl⟩ := hp
    rfl
  · intro m
    rw [← mem_revMonths]
    constructor
    · rintro ⟨p, hp, hpm⟩
      rw [monthly_rev, List.mem_map] at hp
      obtain ⟨m2, hm2, rfl⟩ := hp
      exact hpm ▸ hm2
    · intro hm
      exact ⟨_, List.mem_map.mpr ⟨m, hm, rfl⟩, rfl⟩
  · intro p hp
    rw [monthly_rev, List.mem_map] at hp
    obtain ⟨m, hm, rfl⟩ := hp
    show monthRevenue ts m =
      ((ts.filter (fun t => t.payment_status == "paid" &&
          t.created_at.month == m)).map (fun t => t.total_amount)).sum
    rw [monthRevenue, paid_tx, List.filter_filter]
    congr 2
    apply List.filter_congr
    intro t _
    exact Bool.and_comm _ _

/-- C7, witness: the series shape at a concrete transaction table. -/
theorem c7_series_witness :
    ((monthly_rev c7Transactions).map
      (fun p => p.transaction_month.month)).Sorted (· < ·) :=
  (c7_series c7Transactions).1

/-! ### Claim C9: the z-scores average to zero -/

/-- C9: on a monthly revenue series with at least two months, the
arithmetic mean of the z-scores over all months is exactly zero. -/
theorem c9_zscore_mean (ts : List Transaction)
    (h : 2 ≤ (revMonths ts).length) :
    ((monthly_rev ts).map (fun p => p.z_score)).sum /
      ((monthly_rev ts).length : ℝ) = 0 := by
  have h1 : (monthly_rev ts).map (fun p => p.z_score) =
      (revMonths ts).map (fun m => z_score ts m) := by
    rw [monthly_rev, List.map_map]
    rfl
  rw [h1, sum_z_scores ts (by omega), zero_div]

/-- C9, witness: the zero mean at a concrete two-month series. -/
theorem c9_zscore_mean_witness :
    2 ≤ (revMonths c9Transactions).length ∧
    ((monthly_rev c9Transactions).map (fun p => p.z_score)).sum /
      ((monthly_rev c9Transactions).length : ℝ) = 0 :=
  ⟨by decide, c9_zscore_mean c9Transactions (by decide)⟩

/-! ### Claim C10: a single-month series is labelled Normal -/

/-- C10: when the paid transactions span exactly one calendar month the
pipeline still produces its one row and labels it "Normal": the sample
standard deviation of a single value is undefined (NaN in the script,
modelled by the zero-denominator convention here), and the
`|z_score| > 2` test is false for it. -/
theorem c10_single_month (ts : List Transaction)
    (h : (revMonths ts).length = 1) :
    (monthly_rev ts).length = 1 ∧
    ∀ p ∈ monthly_rev ts, p.anomaly = "Normal" := by
  obtain ⟨m0, hm0⟩ := List.length_eq_one.mp h
  refine ⟨by rw [monthly_rev_length, h], ?_⟩
  intro p hp
  rw [monthly_rev, List.mem_map] at hp
  obtain ⟨m, hm, rfl⟩ := hp
  show anomalyLabel ts m = "Normal"
  rw [hm0, List.mem_singleton] at hm
  subst hm
  have hz : z_score ts m = 0 := by
    rw [z_score]
    have hmean : mean_rev ts = (monthRevenue ts m : ℝ) := by
      rw [mean_rev, hm0]
      simp
    rw [hmean, sub_self, zero_div]
  rw [anomalyLabel, hz]
  norm_num

/-- C10, witness: a concrete single-month table gets the label "Normal" on
its single row. -/
theorem c10_single_month_witness :
    (revMonths c10Transactions).length = 1 ∧
    (monthly_rev c10Transactions).length = 1 ∧
    ∀ p ∈ monthly_rev c10Transactions, p.anomaly = "Normal" :=
  ⟨by decide, (c10_single_month c10Transactions (by decide)).1,
    (c10_single_month c10Transactions (by decide)).2⟩

/-! ### Claim C4: columns of the retention matrix -/

/-- C4, counterexample: the claim says the matrix always has exactly the
columns 0..5.  With one customer whose only session is in its signup
month, the (nonempty) matrix has the single column 0: `unstack` only
creates columns for offsets that occur. -/
theorem c4_counterexample :
    monthNumberCols c4Customers c4Sessions = [0] ∧
    cohortMonthsList c4Customers c4Sessions = [0] ∧
    monthNumberCols c4Customers c4Sessions ≠ [0, 1, 2, 3, 4, 5] := by
  decide

/-- C4 (amended): the retention matrix's columns are exactly the month
offsets in 0..5 that occur for at least one surviving cohort row — never
an offset outside 0..5 — and any cohort/offset cell with no surviving row
is 0 before the rate division. -/
theorem c4_columns (cs : List Customer) (ss : List Session) :
    (∀ m ∈ monthNumberCols cs ss, 0 ≤ m ∧ m ≤ 5) ∧
    (∀ m : ℤ, m ∈ monthNumberCols cs ss ↔
      ∃ r ∈ filteredMerge cs ss, r.2.2 = m) ∧
    (∀ c m : ℤ, (¬ ∃ r ∈ filteredMerge cs ss, r.2.1 = c ∧ r.2.2 = m) →
      retentionCount cs ss c m = 0) := by
  refine ⟨?_, ?_, ?_⟩
  · intro m hm
    rw [monthNumberCols, mem_sortedDistinct, List.mem_map] at hm
    obtain ⟨r, hr, rfl⟩ := hm
    exact filteredMerge_offset_bounds cs ss r hr
  · intro m
    rw [monthNumberCols, mem_sortedDistinct, List.mem_map]
  · intro c m hno
    exact retentionCount_eq_zero cs ss c m hno

/-- C4, witness: the amended column characterization at a concrete input
whose only offset is 0. -/
theorem c4_columns_witness :
    ((0 : ℤ) ∈ monthNumberCols c4Customers c4Sessions) ∧
    (0 ≤ (0 : ℤ) ∧ (0 : ℤ) ≤ 5) :=
  ⟨by decide, (c4_columns c4Customers c4Sessions).1 0 (by decide)⟩

/-! ### Claim C5: the cohort-size denominator -/

/-- C5: the pipeline's cohort size for cohort `c` equals the spec-side
count of distinct customers with cohort month `c` that have at least one
session 0 to 5 months after signup; customers with no such session
contribute nothing. -/
theorem c5_cohort_size (cs : List Customer) (ss : List Session) (c : ℤ) :
    cohort_size cs ss c = specCohortSize cs ss c := by
  rw [cohort_size, specCohortSize]
  congr 1
  ext x
  simp only [List.mem_toFinset, List.mem_map, List.mem_filter,
    Bool.and_eq_true, beq_iff_eq]
  constructor
  · rintro ⟨r, ⟨hr, hc⟩, rfl⟩
    obtain ⟨cust, hcust, s, hs, hid, h0, h5, rfl⟩ :=
      (mem_filteredMerge cs ss r).mp hr
    refine ⟨cust, ⟨hcust, hc, ?_⟩, rfl⟩
    rw [List.any_eq_true]
    refine ⟨s, hs, ?_⟩
    simp [hid, h0, h5]
  · rintro ⟨cust, ⟨hcust, hc, hq⟩, rfl⟩
    rw [List.any_eq_true] at hq
    obtain ⟨s, hs, hb⟩ := hq
    simp only [Bool.and_eq_true, beq_iff_eq, decide_eq_true_eq] at hb
    obtain ⟨⟨hid, h0⟩, h5⟩ := hb
    exact ⟨(cust.customer_id, cohort_month cust,
        activity_month s - cohort_month cust),
      ⟨(mem_filteredMerge cs ss _).mpr ⟨cust, hcust, s, hs, hid, h0, h5, rfl⟩,
        hc⟩, rfl⟩

/-- C5, witness: both counts agree at a concrete input where one of the
two cohort members has no session at all. -/
theorem c5_cohort_size_witness :
    cohort_size c5Customers c5Sessions 0 = specCohortSize c5Customers c5Sessions 0 ∧
    cohort_size c5Customers c5Sessions 0 = 1 :=
  ⟨c5_cohort_size c5Customers c5Sessions 0, by decide⟩

/-! ### Claim C6: retention-rate range and zero cells -/

/-- C6: for every cohort month present in the matrix rows (which forces a
positive cohort size) and every offset column present, the retention rate
lies in [0, 100], and it is exactly 0 whenever no customer of that cohort
has a session at that month offset. -/
theorem c6_rate_bounds (cs : List Customer) (ss : List Session) (c m : ℤ)
    (hc : c ∈ cohortMonthsList cs ss) (hm : m ∈ monthNumberCols cs ss) :
    0 ≤ retention_rate cs ss c m ∧ retention_rate cs ss c m ≤ 100 ∧
    ((¬ ∃ cust ∈ cs, ∃ s ∈ ss, s.customer_id = cust.customer_id ∧
        cohort_month cust = c ∧ activity_month s - cohort_month cust = m) →
      retention_rate cs ss c m = 0) := by
  have hsize : 0 < cohort_size cs ss c := cohort_size_pos cs ss c hc
  have hsizeQ : (0 : ℚ) < (cohort_size cs ss c : ℚ) := by
    exact_mod_cast hsize
  have hle : retentionCount cs ss c m ≤ cohort_size cs ss c :=
    retentionCount_le_cohort_size cs ss c m
  have hr0 : (0 : ℚ) ≤ (retentionCount cs ss c m : ℚ) /
      (cohort_size cs ss c : ℚ) := by
    apply div_nonneg _ hsizeQ.le
    exact_mod_cast Nat.zero_le _
  have hr1 : (retentionCount cs ss c m : ℚ) / (cohort_size cs ss c : ℚ) ≤ 1 := by
    rw [div_le_one hsizeQ]
    exact_mod_cast hle
  have hq0 : (0 : ℚ) ≤ ((retentionCount cs ss c m : ℚ) /
      (cohort_size cs ss c : ℚ)) * 1000 := by linarith
  have hq1 : ((retentionCount cs ss c m : ℚ) /
      (cohort_size cs ss c : ℚ)) * 1000 ≤ ((1000 : ℤ) : ℚ) := by
    push_cast
    linarith
  have hrle : roundHalfEven (((retentionCount cs ss c m : ℚ) /
      (cohort_size cs ss c : ℚ)) * 1000) ≤ 1000 :=
    roundHalfEven_le _ 1000 hq1
  have hrge : 0 ≤ roundHalfEven (((retentionCount cs ss c m : ℚ) /
      (cohort_size cs ss c : ℚ)) * 1000) :=
    roundHalfEven_nonneg _ hq0
  refine ⟨?_, ?_, ?_⟩
  · rw [retention_rate]
    have : (0 : ℚ) ≤ (roundHalfEven (((retentionCount cs ss c m : ℚ) /
        (cohort_size cs ss c : ℚ)) * 1000) : ℚ) := by
      exact_mod_cast hrge
    linarith
  · rw [retention_rate]
    have : (roundHalfEven (((retentionCount cs ss c m : ℚ) /
        (cohort_size cs ss c : ℚ)) * 1000) : ℚ) ≤ 1000 := by
      exact_mod_cast hrle
    linarith
  · intro hno
    have hzero : retentionCount cs ss c m = 0 := by
      apply retentionCount_eq_zero
      rintro ⟨r, hr, hrc, hrm⟩
      obtain ⟨cust, hcust, s, hs, hid, h0, h5, rfl⟩ :=
        (mem_filteredMerge cs ss r).mp hr
      exact hno ⟨cust, hcust, s, hs, hid, hrc, hrm⟩
    rw [retention_rate, hzero]
    norm_num [roundHalfEven]

/-- C6, witness: the rate bounds at a concrete one-customer cohort. -/
theorem c6_rate_bounds_witness :
    ((0 : ℤ) ∈ cohortMonthsList c6Customers c6Sessions) ∧
    ((0 : ℤ) ∈ monthNumberCols c6Customers c6Sessions) ∧
    (0 ≤ retention_rate c6Customers c6Sessions 0 0 ∧
      retention_rate c6Customers c6Sessions 0 0 ≤ 100) := by
  refine ⟨by decide, by decide, ?_⟩
  have h := c6_rate_bounds c6Customers c6Sessions 0 0 (by decide) (by decide)
  exact ⟨h.1, h.2.1⟩

/-! ### Claim C8: the paid_tx column always exists -/

/-- C8: every correlator output row carries a numeric `paid_tx` equal to
the customer's count of "paid" transactions (so the column always exists);
when no transaction in the dataset is "paid", `paid_tx` is 0 on every row
rather than the column being absent; and for every status column the pivot
created, each row's cell is the numeric per-customer count — 0, never
null, when the customer has no transaction of that status. -/
theorem c8_paid_column (tk : List SupportTicket) (ts : List Transaction) :
    (∀ row ∈ support_vs_payment tk ts,
      row.paid_tx = statusCount ts row.customer_id "paid") ∧
    ((∀ t ∈ ts, t.payment_status ≠ "paid") →
      ∀ row ∈ support_vs_payment tk ts, row.paid_tx = 0) ∧
    (∀ row ∈ support_vs_payment tk ts, ∀ s ∈ txStatuses ts,
      row.statusCell s = some (statusCount ts row.customer_id s)) := by
  have key : ∀ row ∈ support_vs_payment tk ts,
      row.paid_tx = statusCount ts row.customer_id "paid" := by
    intro row hrow
    rw [support_vs_payment, List.mem_map] at hrow
    obtain ⟨p, hp, rfl⟩ := hrow
    show (if "paid" ∈ txStatuses ts then
        (if p.1 ∈ txCustomers ts then
          some (statusCount ts p.1 "paid") else none).getD 0
      else 0) = statusCount ts p.1 "paid"
    by_cases hpaid : "paid" ∈ txStatuses ts
    · rw [if_pos hpaid]
      by_cases hcu : p.1 ∈ txCustomers ts
      · rw [if_pos hcu]
        rfl
      · rw [if_neg hcu]
        rw [statusCount_of_not_txCustomer ts p.1 _ hcu]
        rfl
    · rw [if_neg hpaid]
      rw [statusCount_of_not_txStatus ts p.1 _ hpaid]
  refine ⟨key, ?_, ?_⟩
  · intro hnp row hrow
    rw [key row hrow]
    rw [statusCount, List.length_eq_zero, List.filter_eq_nil_iff]
    intro t ht
    simp only [Bool.and_eq_true, beq_iff_eq, not_and]
    intro _ hs
    exact hnp t ht hs
  · intro row hrow s hs
    rw [support_vs_payment, List.mem_map] at hrow
    obtain ⟨p, hp, rfl⟩ := hrow
    show (if s ∈ txStatuses ts then
        some ((if p.1 ∈ txCustomers ts then
          some (statusCount ts p.1 s) else none).getD 0)
      else none) = some (statusCount ts p.1 s)
    rw [if_pos hs]
    by_cases hcu : p.1 ∈ txCustomers ts
    · rw [if_pos hcu]
      rfl
    · rw [if_neg hcu]
      rw [statusCount_of_not_txCustomer ts p.1 s hcu]
      rfl

/-- C8, witness: a dataset with no "paid" transaction still yields
`paid_tx = 0` on the ticket customer's row. -/
theorem c8_paid_column_witness :
    (∀ t ∈ c8Transactions, t.payment_status ≠ "paid") ∧
    (∀ row ∈ support_vs_payment c8Tickets c8Transactions, row.paid_tx = 0) :=
  ⟨by decide, (c8_paid_column c8Tickets c8Transactions).2.1 (by decide)⟩

end BIApp
